import Mathlib

/-!
Verification development for the `api_tester` load-testing harness.

Each Python source construct is shallowly embedded as a Lean definition:
* floats become `ℚ` (the programs only add, multiply, divide and compare them),
* Python ints become `ℤ` or `ℚ` (where a value flows into float arithmetic),
* fallible code returns `Except`,
* `json.loads` results are modelled by an explicit JSON value type
  (`PyJson`), with `none` standing for a body that is not valid JSON.

File map of the embedded code:
* `src/api/client.py` — `RequestResult`, `APIClient.make_request` (tenacity
  retry), `APIRequestManager._extract_token_info`,
  `APIRequestManager.send_single_request`;
* `src/engine/load_test.py` — `LoadTestResult`,
  `LoadTestEngine.run_concurrent_requests`, `LoadTestEngine.analyze_results`
  (with its nested `percentile`);
* `src/api/config.py` — `PromptManager.get_next_prompt`;
* `src/stats/analyzer.py` — `TestDatabase.save_test_session`,
  `TestDatabase.get_load_test_results`,
  `DataAnalyzer.analyze_concurrency_impact` (decline-point scan).
-/

namespace ApiTester

/-! ### Data model: `RequestResult` (src/api/client.py lines 13-29) -/

/-- One per-attempt outcome, mirroring the `RequestResult` dataclass.
`timestamp`, `response_time` are seconds as floats (`ℚ` here); token counts
and `content_length` flow into float arithmetic in the analyzer, so they are
kept as `ℚ` as well; `status_code` is an int. -/
structure RequestResult where
  timestamp : ℚ
  prompt : String
  response_time : ℚ
  status_code : ℤ
  success : Bool
  response_content : String
  error_message : Option String
  input_tokens : ℚ
  output_tokens : ℚ
  total_tokens : ℚ
  content_length : ℚ
deriving DecidableEq

/-! ### Data model: `LoadTestResult` (src/engine/load_test.py lines 16-41) -/

/-- One per-stage aggregate record, mirroring the `LoadTestResult`
dataclass field for field. -/
structure LoadTestResult where
  concurrent_level : ℚ
  total_requests : ℚ
  successful_requests : ℚ
  failed_requests : ℚ
  avg_response_time : ℚ
  min_response_time : ℚ
  max_response_time : ℚ
  p50_response_time : ℚ
  p95_response_time : ℚ
  p99_response_time : ℚ
  requests_per_second : ℚ
  total_test_time : ℚ
  error_rate : ℚ
  timeout_count : ℚ
  total_tokens : ℚ
  avg_tokens_per_request : ℚ
  tokens_per_second : ℚ
  results : List RequestResult
deriving DecidableEq

/-! ### JSON values and the relevant pieces of Python dynamic semantics

`_extract_token_info` (src/api/client.py lines 92-119) applies `in`,
subscripting and `.get` to the value returned by `json.loads`.  Those
operations are total only on dicts; on other values they either succeed
with different semantics (`in` on strings is substring search, on lists it
is membership) or raise `TypeError` / `AttributeError`.  Only
`json.JSONDecodeError` and `KeyError` are caught by the function, so the
other exceptions escape.  `PyErr` distinguishes the exception classes. -/

/-- A parsed JSON value (the possible results of `json.loads`). -/
inductive PyJson where
  | null : PyJson
  | bool (b : Bool) : PyJson
  | num (q : ℚ) : PyJson
  | str (s : String) : PyJson
  | arr (elems : List PyJson) : PyJson
  | obj (entries : List (String × PyJson)) : PyJson

/-- The Python exception classes that `_extract_token_info` can raise or
catch. -/
inductive PyErr where
  | keyError : PyErr
  | typeError : PyErr
  | attributeError : PyErr
deriving DecidableEq

/-- Substring test, the semantics of Python `needle in s` for strings. -/
def strContainsSub (s pat : String) : Bool :=
  (s.splitOn pat).length > 1 || pat = ""

/-- Python `key in x`: key lookup on dicts, element membership on lists,
substring search on strings, `TypeError` on non-containers. -/
def pyContains (x : PyJson) (key : String) : Except PyErr Bool :=
  match x with
  | .obj entries => .ok (entries.any (fun kv => kv.1 == key))
  | .arr elems =>
    .ok (elems.any (fun v => match v with | .str s => s == key | _ => false))
  | .str s => .ok (strContainsSub s key)
  | _ => .error .typeError

/-- Python `x[key]` for a string key: dict lookup (raising `KeyError` when
the key is absent), `TypeError` on every other value. -/
def pySubscript (x : PyJson) (key : String) : Except PyErr PyJson :=
  match x with
  | .obj entries =>
    match entries.lookup key with
    | some v => .ok v
    | none => .error .keyError
  | _ => .error .typeError

/-- Python `x.get(key, dflt)`: defined on dicts only; any other value has
no `get` attribute and raises `AttributeError`. -/
def pyGet (x : PyJson) (key : String) (dflt : PyJson) : Except PyErr PyJson :=
  match x with
  | .obj entries => .ok ((entries.lookup key).getD dflt)
  | _ => .error .attributeError

/-- Python `a + b` restricted to the value shapes that can appear here:
numbers add (bools count as 0/1 numbers), strings and lists concatenate,
anything else raises `TypeError`. -/
def pyAdd : PyJson → PyJson → Except PyErr PyJson
  | .num a, .num b => .ok (.num (a + b))
  | .num a, .bool b => .ok (.num (a + (if b then 1 else 0)))
  | .bool a, .num b => .ok (.num ((if a then 1 else 0) + b))
  | .bool a, .bool b => .ok (.num ((if a then 1 else 0) + (if b then 1 else 0)))
  | .str a, .str b => .ok (.str (a ++ b))
  | .arr a, .arr b => .ok (.arr (a ++ b))
  | _, _ => .error .typeError

/-! ### `APIRequestManager._extract_token_info` (src/api/client.py 92-119)

The argument is the result of `json.loads(response_content)`: `none` when
the body is not valid JSON (`JSONDecodeError`, which the function catches,
yielding the zero-initialised locals), `some j` otherwise.  `KeyError` is
also caught (yielding the current locals, which are still the zeros — no
caught path ever assigns first); every other exception escapes. -/

/-- Embedding of `_extract_token_info`.  Returns the triple
`(input_tokens, output_tokens, total_tokens)` as raw JSON values (the
Python code returns whatever `usage.get` produced), or the escaping
exception. -/
def extract_token_info (parsed : Option PyJson) : Except PyErr (PyJson × PyJson × PyJson) :=
  match parsed with
  | none => .ok (.num 0, .num 0, .num 0)
  | some data =>
    match pyContains data "usage" with
    | .error e => .error e
    | .ok false => .ok (.num 0, .num 0, .num 0)
    | .ok true =>
      match pySubscript data "usage" with
      | .error .keyError => .ok (.num 0, .num 0, .num 0)
      | .error e => .error e
      | .ok usage =>
        match pyContains usage "prompt_tokens" with
        | .error e => .error e
        | .ok true =>
          match pyGet usage "prompt_tokens" (.num 0), pyGet usage "completion_tokens" (.num 0),
              pyGet usage "total_tokens" (.num 0) with
          | .ok i, .ok o, .ok t => .ok (i, o, t)
          | .error e, _, _ => .error e
          | _, .error e, _ => .error e
          | _, _, .error e => .error e
        | .ok false =>
          match pyContains usage "input_tokens" with
          | .error e => .error e
          | .ok true =>
            match pyGet usage "input_tokens" (.num 0), pyGet usage "output_tokens" (.num 0) with
            | .ok i, .ok o =>
              match pyAdd i o with
              | .ok t => .ok (i, o, t)
              | .error e => .error e
            | .error e, _ => .error e
            | _, .error e => .error e
          | .ok false => .ok (.num 0, .num 0, .num 0)

/-! ### `APIClient.make_request` with its tenacity retry decorator
(src/api/client.py lines 38-72)

One HTTP exchange is abstracted as an `HttpResponse`; `parsed` carries the
result of `json.loads` on `text` (an oracle for the JSON parser, `none`
when `text` is not valid JSON).  A whole execution environment is a
function from the attempt number (0-based) to either a response (any
status — the method returns normally on every received HTTP response) or
a raised exception (its message string). -/

/-- A received HTTP response as observed by `make_request`:
`(status, text, response_time)`, plus the parse oracle for `text`. -/
structure HttpResponse where
  status : ℤ
  text : String
  parsed : Option PyJson
  response_time : ℚ

/-- tenacity `wait_exponential(multiplier=1, min=1, max=10)`: the wait
before retry number `n` (1-based) is `multiplier·2^(n-1)` clamped to the
interval `[min, max]`. -/
def waitExponential (multiplier minWait maxWait : ℚ) (n : ℕ) : ℚ :=
  max minWait (min maxWait (multiplier * 2 ^ (n - 1)))

/-- Embedding of the decorated `make_request`: `stop_after_attempt(3)`
with `wait_exponential(multiplier=1, min=1, max=10)` between attempts.
Any received HTTP response is returned (no retry); any exception triggers
a retry until 3 attempts have been issued (tenacity then re-raises, as
`RetryError` wrapping the last exception — we carry the last exception).
Returns the final outcome, the number of attempts issued, and the list of
backoff waits performed. -/
def make_request (attempt : ℕ → Except String HttpResponse) :
    Except String HttpResponse × ℕ × List ℚ :=
  match attempt 0 with
  | .ok r => (.ok r, 1, [])
  | .error _ =>
    match attempt 1 with
    | .ok r => (.ok r, 2, [waitExponential 1 1 10 1])
    | .error _ =>
      match attempt 2 with
      | .ok r => (.ok r, 3, [waitExponential 1 1 10 1, waitExponential 1 1 10 2])
      | .error e => (.error e, 3, [waitExponential 1 1 10 1, waitExponential 1 1 10 2])

/-- Exception message used when a value raised out of token extraction
propagates to `send_single_request`'s `except Exception` handler. -/
def pyErrMessage : PyErr → String
  | .keyError => "KeyError"
  | .typeError => "TypeError"
  | .attributeError => "AttributeError"

/-- Numeric reading of a JSON token-count value as stored into the
`RequestResult` int fields (Python stores the raw value; responses carry
numeric token counts, and bools are ints in Python). -/
def jsonNum : PyJson → ℚ
  | .num q => q
  | .bool b => if b then 1 else 0
  | _ => 0

/-- Embedding of `APIRequestManager.send_single_request`
(src/api/client.py lines 121-178).  `prompt` is the prompt drawn from the
prompt manager, `timestamp` the issue time, `nowOnError` the value of
`time.time()` in the `except` handler.  The whole `try` body — request,
response read and token extraction — is covered by `except Exception`,
which produces the failed outcome with status 0. -/
def send_single_request (prompt : String) (timestamp nowOnError : ℚ)
    (attempt : ℕ → Except String HttpResponse) : RequestResult :=
  let failed : String → RequestResult := fun msg =>
    { timestamp := timestamp
      prompt := prompt
      response_time := nowOnError - timestamp
      status_code := 0
      success := false
      response_content := ""
      error_message := some msg
      input_tokens := 0
      output_tokens := 0
      total_tokens := 0
      content_length := 0 }
  match make_request attempt with
  | (.error e, _, _) => failed e
  | (.ok r, _, _) =>
    match extract_token_info r.parsed with
    | .error e => failed (pyErrMessage e)
    | .ok (i, o, t) =>
      { timestamp := timestamp
        prompt := prompt
        response_time := r.response_time
        status_code := r.status
        success := decide (200 ≤ r.status) && decide (r.status < 300)
        response_content := r.text
        error_message := none
        input_tokens := jsonNum i
        output_tokens := jsonNum o
        total_tokens := jsonNum t
        content_length := (r.text.length : ℚ) }

/-! ### `LoadTestEngine.run_concurrent_requests`
(src/engine/load_test.py lines 55-129)

The engine creates `total_requests` tasks, gathers them in batches of
`batch_size = min(2·concurrent_level, 100)` with `return_exceptions=True`,
and turns each gathered exception into a synthesized failed outcome stamped
with `time.time()` at collection.  The gathered values are abstracted as a
list of `Except String RequestResult` (exception message or outcome), and
`time.time()` as a clock indexed by the number of outcomes already
collected.  With `concurrent_level = 0` the batch size is 0 and Python's
`range(0, n, 0)` raises `ValueError`. -/

/-- The body of the collection loop: an outcome passes through, an
exception becomes the synthesized failed outcome (lines 103-121). -/
def collectResult (now : ℚ) : Except String RequestResult → RequestResult
  | .ok r => r
  | .error e =>
    { timestamp := now
      prompt := ""
      response_time := 0
      status_code := 0
      success := false
      response_content := ""
      error_message := some e
      input_tokens := 0
      output_tokens := 0
      total_tokens := 0
      content_length := 0 }

/-- Sequential collection of gathered values starting at collection index
`idx` (the clock argument for each synthesized outcome). -/
def collectSeq (clock : ℕ → ℚ) (idx : ℕ) : List (Except String RequestResult) → List RequestResult
  | [] => []
  | t :: ts => collectResult (clock idx) t :: collectSeq clock (idx + 1) ts

/-- The batch loop (`for i in range(0, len(tasks), batch_size)`): the
batch size is `bs1 + 1` (it is positive whenever the loop runs). -/
def collectBatches (clock : ℕ → ℚ) (bs1 : ℕ) (idx : ℕ)
    (ts : List (Except String RequestResult)) : List RequestResult :=
  if ts.isEmpty then []
  else
    collectSeq clock idx (ts.take (bs1 + 1)) ++
      collectBatches clock bs1 (idx + (ts.take (bs1 + 1)).length) (ts.drop (bs1 + 1))
termination_by ts.length
decreasing_by
  simp only [List.length_drop]
  cases ts with
  | nil => simp_all
  | cons h t => simp; omega

/-- Embedding of `run_concurrent_requests`: `gathered` is the list of
values produced by `asyncio.gather(..., return_exceptions=True)` over the
`total_requests` tasks (one entry per requested task, in task order). -/
def run_concurrent_requests (concurrent_level : ℕ) (clock : ℕ → ℚ)
    (gathered : List (Except String RequestResult)) : Except String (List RequestResult) :=
  match min (2 * concurrent_level) 100 with
  | 0 => .error "ValueError: range() arg 3 must not be zero"
  | bs1 + 1 => .ok (collectBatches clock bs1 0 gathered)

/-! ### `LoadTestEngine.analyze_results` (src/engine/load_test.py 131-228) -/

/-- Python `max(list)` on a non-empty list (the `[]` case is never
reached by the analyzer, which guards emptiness first). -/
def pyMax : List ℚ → ℚ
  | [] => 0
  | x :: xs => xs.foldl max x

/-- Python `min(list)` on a non-empty list. -/
def pyMin : List ℚ → ℚ
  | [] => 0
  | x :: xs => xs.foldl min x

/-- The nested `percentile(data, p)` helper (lines 173-179), applied by
the analyzer to the ascending-sorted positive latencies of successful
outcomes: `k = (len-1)·p/100`, `f = int(k)`, `c = k - f`, linear
interpolation between `data[f]` and `data[f+1]`, or `data[f]` when
`f = len-1`.  Python `int()` truncates toward zero, which agrees with the
floor for the non-negative `k` arising from the analyzer's `p ∈ {50, 95,
99}` on non-empty data. -/
def percentile (data : List ℚ) (p : ℚ) : ℚ :=
  let k : ℚ := ((data.length : ℚ) - 1) * p / 100
  let f : ℤ := ⌊k⌋
  let c : ℚ := k - (f : ℚ)
  if f < (data.length : ℤ) - 1 then
    data.getD f.toNat 0 * (1 - c) + data.getD (f.toNat + 1) 0 * c
  else
    data.getD f.toNat 0

/-- The subset of outcomes used for latency and token statistics:
`[r for r in results if r.success and r.response_time > 0]` (line 163). -/
def successfulResults (results : List RequestResult) : List RequestResult :=
  results.filter (fun r => r.success && decide (r.response_time > 0))

/-- Embedding of `analyze_results`.  `response_times.sort()` sorts in
place ascending; sums, lengths, `min` and `max` are insensitive to the
ordering, so they are taken over the unsorted projection while the
percentiles read the sorted list. -/
def analyze_results (results : List RequestResult) (concurrent_level : ℚ) : LoadTestResult :=
  if results.isEmpty then
    { concurrent_level := concurrent_level
      total_requests := 0, successful_requests := 0, failed_requests := 0
      avg_response_time := 0, min_response_time := 0, max_response_time := 0
      p50_response_time := 0, p95_response_time := 0, p99_response_time := 0
      requests_per_second := 0, total_test_time := 0, error_rate := 0
      timeout_count := 0, total_tokens := 0, avg_tokens_per_request := 0
      tokens_per_second := 0, results := results }
  else
    let total_requests : ℚ := (results.length : ℚ)
    let successful_requests : ℚ := ((results.filter (fun r => r.success)).length : ℚ)
    let failed_requests : ℚ := total_requests - successful_requests
    let error_rate : ℚ := if total_requests > 0 then failed_requests / total_requests else 0
    let succ := successfulResults results
    let response_times := succ.map (fun r => r.response_time)
    let sorted_times := List.insertionSort (· ≤ ·) response_times
    let haveTimes := !response_times.isEmpty
    let avg_response_time := if haveTimes then response_times.sum / (response_times.length : ℚ) else 0
    let min_response_time := if haveTimes then pyMin response_times else 0
    let max_response_time := if haveTimes then pyMax response_times else 0
    let p50_response_time := if haveTimes then percentile sorted_times 50 else 0
    let p95_response_time := if haveTimes then percentile sorted_times 95 else 0
    let p99_response_time := if haveTimes then percentile sorted_times 99 else 0
    let timestamps := results.map (fun r => r.timestamp)
    let total_test_time :=
      if timestamps.isEmpty then 0
      else pyMax (results.map (fun r => r.timestamp + r.response_time)) - pyMin timestamps
    let requests_per_second :=
      if total_test_time > 0 then successful_requests / total_test_time else 0
    let timeout_count : ℚ :=
      ((results.filter (fun r => decide (r.response_time > 1200))).length : ℚ)
    let total_tokens := (succ.map (fun r => r.total_tokens)).sum
    let avg_tokens_per_request :=
      if succ.isEmpty then 0 else total_tokens / (succ.length : ℚ)
    let tokens_per_second := if total_test_time > 0 then total_tokens / total_test_time else 0
    { concurrent_level := concurrent_level
      total_requests := total_requests
      successful_requests := successful_requests
      failed_requests := failed_requests
      avg_response_time := avg_response_time
      min_response_time := min_response_time
      max_response_time := max_response_time
      p50_response_time := p50_response_time
      p95_response_time := p95_response_time
      p99_response_time := p99_response_time
      requests_per_second := requests_per_second
      total_test_time := total_test_time
      error_rate := error_rate
      timeout_count := timeout_count
      total_tokens := total_tokens
      avg_tokens_per_request := avg_tokens_per_request
      tokens_per_second := tokens_per_second
      results := results }

/-! ### `PromptManager.get_next_prompt` (src/api/config.py lines 110-146)

The constructor guarantees `prompts` is non-empty (an empty prompt file
raises `ValueError`) and starts `current_index` at 0. -/

/-- The mutable state of a `PromptManager`. -/
structure PromptManager where
  prompts : List String
  current_index : ℕ
deriving DecidableEq

/-- Embedding of `get_next_prompt`: return `prompts[current_index]`, then
advance the cursor by one modulo the length. -/
def get_next_prompt (pm : PromptManager) : String × PromptManager :=
  (pm.prompts.getD pm.current_index "",
    { pm with current_index := (pm.current_index + 1) % pm.prompts.length })

/-- The outputs of `n` successive `get_next_prompt` calls. -/
def nextPrompts (pm : PromptManager) : ℕ → List String
  | 0 => []
  | n + 1 =>
    let (s, pm') := get_next_prompt pm
    s :: nextPrompts pm' n

/-- The manager state after `n` successive `get_next_prompt` calls. -/
def afterPrompts (pm : PromptManager) : ℕ → PromptManager
  | 0 => pm
  | n + 1 => afterPrompts (get_next_prompt pm).2 n

/-! ### `TestDatabase` (src/stats/analyzer.py lines 15-238)

The four SQLite tables are modelled as row lists in insertion order.
`test_sessions.session_id` is declared `UNIQUE`, and the header write
uses `INSERT OR REPLACE`, which deletes a conflicting row and appends the
new one.  The child tables (`load_test_results`, `request_results`,
`network_stats`) are written with plain `INSERT` — nothing deletes their
prior rows for the same session id.  `id INTEGER PRIMARY KEY
AUTOINCREMENT` columns are modelled by explicit counters. -/

/-- A `test_sessions` row. -/
structure SessionRow where
  session_id : String
  api_name : String
  test_config : String
  start_time : ℚ
  end_time : ℚ
  total_requests : ℚ
  successful_requests : ℚ
  failed_requests : ℚ
  avg_response_time : ℚ
  max_concurrent : ℚ
  metadata : String
deriving DecidableEq

/-- A `load_test_results` row (`row_id` is the AUTOINCREMENT `id`). -/
structure LoadRow where
  row_id : ℕ
  session_id : String
  concurrent_level : ℚ
  total_requests : ℚ
  successful_requests : ℚ
  failed_requests : ℚ
  avg_response_time : ℚ
  min_response_time : ℚ
  max_response_time : ℚ
  p50_response_time : ℚ
  p95_response_time : ℚ
  p99_response_time : ℚ
  requests_per_second : ℚ
  total_test_time : ℚ
  error_rate : ℚ
  timeout_count : ℚ
  total_tokens : ℚ
  avg_tokens_per_request : ℚ
  tokens_per_second : ℚ
deriving DecidableEq

/-- A `request_results` row.  `response_content` is not persisted (the
INSERT at lines 159-170 has no such column). -/
structure ReqRow where
  row_id : ℕ
  session_id : String
  concurrent_level : ℚ
  timestamp : ℚ
  prompt : String
  response_time : ℚ
  status_code : ℤ
  success : Bool
  error_message : Option String
  input_tokens : ℚ
  output_tokens : ℚ
  total_tokens : ℚ
  content_length : ℚ
deriving DecidableEq

/-- The fields of a `NetworkStats` aggregate that `save_test_session`
persists (src/monitor/network.py lines 29-43). -/
structure NetworkStats where
  total_pings : ℚ
  successful_pings : ℚ
  success_rate : ℚ
  avg_response_time : ℚ
  packet_loss : ℚ
  jitter : ℚ
deriving DecidableEq

/-- A `network_stats` row. -/
structure NetworkRow where
  session_id : String
  host : String
  timestamp : ℚ
  total_pings : ℚ
  successful_pings : ℚ
  success_rate : ℚ
  avg_response_time : ℚ
  packet_loss : ℚ
  jitter : ℚ
deriving DecidableEq

/-- The database state: the four tables plus the AUTOINCREMENT counters
for the two child tables whose `id` values are observable on read. -/
structure TestDatabase where
  test_sessions : List SessionRow
  load_test_results : List LoadRow
  request_results : List ReqRow
  network_stats : List NetworkRow
  load_next_id : ℕ
  request_next_id : ℕ
deriving DecidableEq

/-- A freshly initialised database (`_init_database` creates empty
tables; AUTOINCREMENT ids start at 1). -/
def TestDatabase.empty : TestDatabase :=
  { test_sessions := [], load_test_results := [], request_results := []
    network_stats := [], load_next_id := 1, request_next_id := 1 }

/-- The `load_test_results` row written for one stage (lines 139-155). -/
def mkLoadRow (rowId : ℕ) (sid : String) (r : LoadTestResult) : LoadRow :=
  { row_id := rowId
    session_id := sid
    concurrent_level := r.concurrent_level
    total_requests := r.total_requests
    successful_requests := r.successful_requests
    failed_requests := r.failed_requests
    avg_response_time := r.avg_response_time
    min_response_time := r.min_response_time
    max_response_time := r.max_response_time
    p50_response_time := r.p50_response_time
    p95_response_time := r.p95_response_time
    p99_response_time := r.p99_response_time
    requests_per_second := r.requests_per_second
    total_test_time := r.total_test_time
    error_rate := r.error_rate
    timeout_count := r.timeout_count
    total_tokens := r.total_tokens
    avg_tokens_per_request := r.avg_tokens_per_request
    tokens_per_second := r.tokens_per_second }

/-- The `request_results` row written for one attempt outcome of a stage
at level `cl` (lines 158-170). -/
def mkReqRow (rowId : ℕ) (sid : String) (cl : ℚ) (q : RequestResult) : ReqRow :=
  { row_id := rowId
    session_id := sid
    concurrent_level := cl
    timestamp := q.timestamp
    prompt := q.prompt
    response_time := q.response_time
    status_code := q.status_code
    success := q.success
    error_message := q.error_message
    input_tokens := q.input_tokens
    output_tokens := q.output_tokens
    total_tokens := q.total_tokens
    content_length := q.content_length }

/-- All `(concurrent_level, outcome)` pairs of a session's stages, in
write order (outer loop over stages, inner loop over their outcomes). -/
def stageRequestPairs (load_results : List LoadTestResult) : List (ℚ × RequestResult) :=
  load_results.flatMap (fun r => r.results.map (fun q => (r.concurrent_level, q)))

/-- Embedding of `TestDatabase.save_test_session` (lines 103-184).
`metadata` stands for the already-JSON-encoded metadata text and `now`
for `time.time()` at the network-stats writes.  Line 120 computes
`statistics.mean` over the stage averages that are `> 0`; on an empty
list `statistics.mean` raises `StatisticsError`, which happens before any
row is written, so the call fails with the database unchanged. -/
def save_test_session (db : TestDatabase) (session_id api_name test_config : String)
    (start_time end_time : ℚ) (load_results : List LoadTestResult)
    (network_stats : List (String × NetworkStats)) (metadata : String) (now : ℚ) :
    Except String TestDatabase :=
  let positives := (load_results.filter (fun r => r.avg_response_time > 0)).map
    (fun r => r.avg_response_time)
  if positives.isEmpty then
    .error "StatisticsError: mean requires at least one data point"
  else
    let total_requests := (load_results.map (fun r => r.total_requests)).sum
    let successful_requests := (load_results.map (fun r => r.successful_requests)).sum
    let failed_requests := (load_results.map (fun r => r.failed_requests)).sum
    let avg_response_time := positives.sum / (positives.length : ℚ)
    let max_concurrent :=
      if load_results.isEmpty then 0
      else pyMax (load_results.map (fun r => r.concurrent_level))
    let headerRow : SessionRow :=
      { session_id := session_id
        api_name := api_name
        test_config := test_config
        start_time := start_time
        end_time := end_time
        total_requests := total_requests
        successful_requests := successful_requests
        failed_requests := failed_requests
        avg_response_time := avg_response_time
        max_concurrent := max_concurrent
        metadata := metadata }
    let loadRows := load_results.enum.map
      (fun ri => mkLoadRow (db.load_next_id + ri.1) session_id ri.2)
    let reqRows := (stageRequestPairs load_results).enum.map
      (fun pi => mkReqRow (db.request_next_id + pi.1) session_id pi.2.1 pi.2.2)
    let netRows := network_stats.map (fun hs =>
      { session_id := session_id
        host := hs.1
        timestamp := now
        total_pings := hs.2.total_pings
        successful_pings := hs.2.successful_pings
        success_rate := hs.2.success_rate
        avg_response_time := hs.2.avg_response_time
        packet_loss := hs.2.packet_loss
        jitter := hs.2.jitter : NetworkRow })
    .ok
      { test_sessions :=
          (db.test_sessions.filter (fun s => s.session_id ≠ session_id)) ++ [headerRow]
        load_test_results := db.load_test_results ++ loadRows
        request_results := db.request_results ++ reqRows
        network_stats := db.network_stats ++ netRows
        load_next_id := db.load_next_id + loadRows.length
        request_next_id := db.request_next_id + reqRows.length }

/-! ### `TestDatabase.get_load_test_results` (lines 197-238)

For each `load_test_results` row of the session (ordered by
`concurrent_level`), the code builds `row_dict = dict(row)` — whose keys
are ALL the table's columns, including `id` and `session_id` — adds the
reconstructed `results` list, and calls `LoadTestResult(**row_dict)`.
A Python dataclass constructor raises `TypeError` on any unexpected
keyword argument, so the key set must be checked against the dataclass
fields. -/

/-- A value in a row dictionary (`results` holds the Python-level list of
reconstructed `RequestResult`s added at line 235). -/
inductive SqlVal where
  | numVal (q : ℚ) : SqlVal
  | intVal (n : ℤ) : SqlVal
  | textVal (s : String) : SqlVal
  | boolVal (b : Bool) : SqlVal
  | optTextVal (s : Option String) : SqlVal
  | resultsVal (rs : List RequestResult) : SqlVal
deriving DecidableEq

/-- `dict(row)` for a `load_test_results` row: one key per table column,
in schema order. -/
def LoadRow.toDict (r : LoadRow) : List (String × SqlVal) :=
  [("id", .intVal r.row_id), ("session_id", .textVal r.session_id),
   ("concurrent_level", .numVal r.concurrent_level),
   ("total_requests", .numVal r.total_requests),
   ("successful_requests", .numVal r.successful_requests),
   ("failed_requests", .numVal r.failed_requests),
   ("avg_response_time", .numVal r.avg_response_time),
   ("min_response_time", .numVal r.min_response_time),
   ("max_response_time", .numVal r.max_response_time),
   ("p50_response_time", .numVal r.p50_response_time),
   ("p95_response_time", .numVal r.p95_response_time),
   ("p99_response_time", .numVal r.p99_response_time),
   ("requests_per_second", .numVal r.requests_per_second),
   ("total_test_time", .numVal r.total_test_time),
   ("error_rate", .numVal r.error_rate),
   ("timeout_count", .numVal r.timeout_count),
   ("total_tokens", .numVal r.total_tokens),
   ("avg_tokens_per_request", .numVal r.avg_tokens_per_request),
   ("tokens_per_second", .numVal r.tokens_per_second)]

/-- The `LoadTestResult` dataclass field names, i.e. the keyword
arguments its constructor accepts. -/
def loadTestResultFields : List String :=
  ["concurrent_level", "total_requests", "successful_requests", "failed_requests",
   "avg_response_time", "min_response_time", "max_response_time",
   "p50_response_time", "p95_response_time", "p99_response_time",
   "requests_per_second", "total_test_time", "error_rate", "timeout_count",
   "total_tokens", "avg_tokens_per_request", "tokens_per_second", "results"]

/-- Read a keyword argument as a float. -/
def kwNum (kvs : List (String × SqlVal)) (key : String) : ℚ :=
  match kvs.lookup key with
  | some (.numVal q) => q
  | some (.intVal n) => (n : ℚ)
  | _ => 0

/-- Embedding of the call `LoadTestResult(**row_dict)` (line 236): raises
`TypeError` when `row_dict` holds a key that is not a dataclass field
(or lacks one of the fields), otherwise builds the record. -/
def loadTestResultOfKwargs (kvs : List (String × SqlVal)) : Except String LoadTestResult :=
  match kvs.find? (fun kv => !(loadTestResultFields.contains kv.1)) with
  | some kv => .error ("TypeError: unexpected keyword argument " ++ kv.1)
  | none =>
    if loadTestResultFields.all (fun f => kvs.any (fun kv => kv.1 == f)) then
      .ok
        { concurrent_level := kwNum kvs "concurrent_level"
          total_requests := kwNum kvs "total_requests"
          successful_requests := kwNum kvs "successful_requests"
          failed_requests := kwNum kvs "failed_requests"
          avg_response_time := kwNum kvs "avg_response_time"
          min_response_time := kwNum kvs "min_response_time"
          max_response_time := kwNum kvs "max_response_time"
          p50_response_time := kwNum kvs "p50_response_time"
          p95_response_time := kwNum kvs "p95_response_time"
          p99_response_time := kwNum kvs "p99_response_time"
          requests_per_second := kwNum kvs "requests_per_second"
          total_test_time := kwNum kvs "total_test_time"
          error_rate := kwNum kvs "error_rate"
          timeout_count := kwNum kvs "timeout_count"
          total_tokens := kwNum kvs "total_tokens"
          avg_tokens_per_request := kwNum kvs "avg_tokens_per_request"
          tokens_per_second := kwNum kvs "tokens_per_second"
          results :=
            match kvs.lookup "results" with
            | some (.resultsVal rs) => rs
            | _ => [] }
    else .error "TypeError: missing required argument"

/-- Reconstruction of one `RequestResult` from its row (lines 220-232):
every field is read back except `response_content`, which is set to the
empty string. -/
def reqRowToResult (q : ReqRow) : RequestResult :=
  { timestamp := q.timestamp
    prompt := q.prompt
    response_time := q.response_time
    status_code := q.status_code
    success := q.success
    response_content := ""
    error_message := q.error_message
    input_tokens := q.input_tokens
    output_tokens := q.output_tokens
    total_tokens := q.total_tokens
    content_length := q.content_length }

/-- The reconstruction loop over the session's stage rows; the first
raised exception aborts the whole call. -/
def buildLoadResults (db : TestDatabase) (sid : String) :
    List LoadRow → Except String (List LoadTestResult)
  | [] => .ok []
  | row :: rest =>
    let reqRows := db.request_results.filter
      (fun q => q.session_id == sid && q.concurrent_level == row.concurrent_level)
    let request_results := reqRows.map reqRowToResult
    match loadTestResultOfKwargs (row.toDict ++ [("results", .resultsVal request_results)]) with
    | .error e => .error e
    | .ok r =>
      match buildLoadResults db sid rest with
      | .error e => .error e
      | .ok rs => .ok (r :: rs)

/-- Embedding of `get_load_test_results`: select the session's
`load_test_results` rows ordered by `concurrent_level` (a stable sort of
the stored order), then reconstruct each stage. -/
def get_load_test_results (db : TestDatabase) (sid : String) :
    Except String (List LoadTestResult) :=
  let rows := List.insertionSort (fun a b => a.concurrent_level ≤ b.concurrent_level)
    (db.load_test_results.filter (fun r => r.session_id == sid))
  buildLoadResults db sid rows

/-! ### `DataAnalyzer.analyze_concurrency_impact`, decline-point scan
(src/stats/analyzer.py lines 380-391)

The dataframe holds one row per `load_test_results` row of the session,
ordered by `concurrent_level`, with the seven selected columns. -/

/-- One dataframe row of the concurrency-impact query. -/
structure ConcStageRow where
  concurrent_level : ℚ
  avg_response_time : ℚ
  requests_per_second : ℚ
  error_rate : ℚ
  p95_response_time : ℚ
  total_tokens : ℚ
  tokens_per_second : ℚ
deriving DecidableEq

/-- The dataframe row of a stored stage row. -/
def LoadRow.toConcRow (r : LoadRow) : ConcStageRow :=
  { concurrent_level := r.concurrent_level
    avg_response_time := r.avg_response_time
    requests_per_second := r.requests_per_second
    error_rate := r.error_rate
    p95_response_time := r.p95_response_time
    total_tokens := r.total_tokens
    tokens_per_second := r.tokens_per_second }

/-- The session's dataframe: its stage rows ordered by
`concurrent_level`, projected to the selected columns. -/
def concurrencyDf (db : TestDatabase) (sid : String) : List ConcStageRow :=
  (List.insertionSort (fun a b => a.concurrent_level ≤ b.concurrent_level)
    (db.load_test_results.filter (fun r => r.session_id == sid))).map LoadRow.toConcRow

/-- The scan `for i in range(1, len(df))`: the first `i` with
`rps[i] < rps[i-1] * 0.95` yields row `i-1`. -/
def findDecline : List ConcStageRow → Option ConcStageRow
  | a :: b :: rest =>
    if b.requests_per_second < a.requests_per_second * (95 / 100) then some a
    else findDecline (b :: rest)
  | _ => none

/-- The decline-point report of `analyze_concurrency_impact` applied to
the session's dataframe rows: the scan only runs under the guard
`len(df) > 2` (line 381). -/
def throughput_decline_point (rows : List ConcStageRow) : Option ConcStageRow :=
  if 2 < rows.length then findDecline rows else none

/-! ## Helper lemmas -/

/-- A successful association-list lookup implies the `any`-based key
membership test (Python `key in dict`) succeeds. -/
theorem lookup_some_any {α : Type} (entries : List (String × α)) (k : String) (v : α)
    (h : entries.lookup k = some v) : entries.any (fun kv => kv.1 == k) = true := by
  induction entries with
  | nil => simp at h
  | cons e rest ih =>
    rcases e with ⟨ek, ev⟩
    rw [List.lookup] at h
    by_cases hk : k = ek
    · subst hk; simp
    · have hbe : (k == ek) = false := by simpa using hk
      rw [hbe] at h
      have hrest := ih h
      simp [List.any_cons, hrest]

/-- Rotation state: prompts are never mutated by `get_next_prompt`. -/
theorem afterPrompts_prompts (pm : PromptManager) (n : ℕ) :
    (afterPrompts pm n).prompts = pm.prompts := by
  induction n generalizing pm with
  | zero => rfl
  | succ n ih => simpa [afterPrompts, get_next_prompt] using ih _

/-- Cursor law for a run of calls: starting below the length, the `k`-th
output (0-based) is the element at `(start + k) mod L`. -/
theorem nextPrompts_get? (pm : PromptManager) (hL : 0 < pm.prompts.length)
    (hi : pm.current_index < pm.prompts.length) (n k : ℕ) (hk : k < n) :
    (nextPrompts pm n).get? k =
      some (pm.prompts.getD ((pm.current_index + k) % pm.prompts.length) "") := by
  induction n generalizing pm k with
  | zero => omega
  | succ n ih =>
    cases k with
    | zero =>
      simp [nextPrompts, get_next_prompt, Nat.mod_eq_of_lt hi]
    | succ k =>
      have hstep : ((pm.current_index + 1) % pm.prompts.length) < pm.prompts.length :=
        Nat.mod_lt _ hL
      have := ih { pm with current_index := (pm.current_index + 1) % pm.prompts.length }
        hL hstep k (by omega)
      simp only [nextPrompts, get_next_prompt, List.get?_cons_succ]
      rw [this]
      congr 1
      rw [Nat.mod_add_mod]
      congr 2
      omega

/-- Cursor advance law: after `n + 1` calls from cursor position `i < L`,
the cursor is at `(i + n + 1) mod L`. -/
theorem afterPrompts_index (pm : PromptManager) (hL : 0 < pm.prompts.length) (n : ℕ) :
    (afterPrompts pm (n + 1)).current_index =
      (pm.current_index + (n + 1)) % pm.prompts.length := by
  induction n generalizing pm with
  | zero =>
    simp [afterPrompts, get_next_prompt]
  | succ n ih =>
    have h2 : afterPrompts pm (n + 2) = afterPrompts (get_next_prompt pm).2 (n + 1) := rfl
    rw [h2, ih (get_next_prompt pm).2 (by simpa [get_next_prompt] using hL)]
    simp only [get_next_prompt]
    rw [Nat.mod_add_mod]
    congr 1
    omega

/-! ## Claim theorems -/

/-- Claim C7 (confirmed): with the cursor starting at 0 over a non-empty
prompt list of length L, the k-th call (1-indexed) of `get_next_prompt`
returns the element at index (k-1) mod L, and after k calls the cursor
has advanced to k mod L — each call moves it by exactly one modulo L. -/
theorem c7_prompt_rotation (pm : PromptManager) (hL : 0 < pm.prompts.length)
    (h0 : pm.current_index = 0) (n k : ℕ) (hk : k < n) :
    (nextPrompts pm n).get? k = some (pm.prompts.getD (k % pm.prompts.length) "")
    ∧ (afterPrompts pm (k + 1)).current_index = (k + 1) % pm.prompts.length := by
  constructor
  · have := nextPrompts_get? pm hL (by omega) n k hk
    simpa [h0] using this
  · have := afterPrompts_index pm hL k
    simpa [h0] using this

/-- Claim C7 witness: prompts ["a","b","c"]; the 7th call returns "a"
(index 6 mod 3 = 0) and the cursor ends at 7 mod 3 = 1; moreover the 7
successive outputs are a,b,c,a,b,c,a. -/
theorem c7_prompt_rotation_witness :
    0 < (PromptManager.mk ["a", "b", "c"] 0).prompts.length
    ∧ (nextPrompts (PromptManager.mk ["a", "b", "c"] 0) 7).get? 6 =
        some ((PromptManager.mk ["a", "b", "c"] 0).prompts.getD
          (6 % (PromptManager.mk ["a", "b", "c"] 0).prompts.length) "")
    ∧ (afterPrompts (PromptManager.mk ["a", "b", "c"] 0) 7).current_index =
        7 % (PromptManager.mk ["a", "b", "c"] 0).prompts.length
    ∧ nextPrompts (PromptManager.mk ["a", "b", "c"] 0) 7 =
        ["a", "b", "c", "a", "b", "c", "a"] := by
  refine ⟨by decide, ?_, ?_, by rfl⟩
  · exact (c7_prompt_rotation (PromptManager.mk ["a", "b", "c"] 0)
      (by decide) rfl 7 6 (by decide)).1
  · exact (c7_prompt_rotation (PromptManager.mk ["a", "b", "c"] 0)
      (by decide) rfl 7 6 (by decide)).2

/-- Claim C6 counterexample: the body "5" is valid JSON and lacks a
`usage` object, yet `_extract_token_info` does not return (0, 0, 0)
without error — `'usage' in 5` raises `TypeError`, which is not among the
caught exception classes. -/
theorem c6_token_parsing_counterexample :
    extract_token_info (some (.num 5)) = .error .typeError := rfl

/-- Claim C6 (corrected): the schema-detection rules hold as stated for
bodies whose JSON root is an object: `usage.prompt_tokens` present gives
the three `usage.get` values (defaulting to 0 when absent); otherwise
`usage.input_tokens` present gives (input, output, input + output); a
root object without `usage`, or an unparseable body, gives (0, 0, 0)
without error.  (The original claim's "any body … without raising" is
refuted above: non-container JSON roots raise `TypeError`.) -/
theorem c6_token_parsing (entries usage : List (String × PyJson)) (a b : ℚ) :
    extract_token_info none = .ok (.num 0, .num 0, .num 0)
    ∧ (entries.any (fun kv => kv.1 == "usage") = false →
        extract_token_info (some (.obj entries)) = .ok (.num 0, .num 0, .num 0))
    ∧ (entries.lookup "usage" = some (.obj usage) →
        usage.any (fun kv => kv.1 == "prompt_tokens") = true →
        extract_token_info (some (.obj entries)) =
          .ok ((usage.lookup "prompt_tokens").getD (.num 0),
               (usage.lookup "completion_tokens").getD (.num 0),
               (usage.lookup "total_tokens").getD (.num 0)))
    ∧ (entries.lookup "usage" = some (.obj usage) →
        usage.any (fun kv => kv.1 == "prompt_tokens") = false →
        usage.any (fun kv => kv.1 == "input_tokens") = true →
        (usage.lookup "input_tokens").getD (.num 0) = .num a →
        (usage.lookup "output_tokens").getD (.num 0) = .num b →
        extract_token_info (some (.obj entries)) = .ok (.num a, .num b, .num (a + b)))
    ∧ (entries.lookup "usage" = some (.obj usage) →
        usage.any (fun kv => kv.1 == "prompt_tokens") = false →
        usage.any (fun kv => kv.1 == "input_tokens") = false →
        extract_token_info (some (.obj entries)) = .ok (.num 0, .num 0, .num 0)) := by
  refine ⟨rfl, ?_, ?_, ?_, ?_⟩
  · intro hno
    simp [extract_token_info, pyContains, hno]
  · intro hu hpt
    have hany := lookup_some_any entries "usage" _ hu
    simp [extract_token_info, pyContains, pySubscript, pyGet, hany, hu, hpt]
  · intro hu hpt hit hi ho
    have hany := lookup_some_any entries "usage" _ hu
    simp [extract_token_info, pyContains, pySubscript, pyGet, pyAdd, hany, hu, hpt, hit, hi, ho]
  · intro hu hpt hit
    have hany := lookup_some_any entries "usage" _ hu
    simp [extract_token_info, pyContains, pySubscript, pyGet, hany, hu, hpt, hit]

/-- Claim C6 witness: the two concrete dual-schema bodies and the empty
object of the spec's scenario 4 — `{"usage":{"prompt_tokens":10,
"completion_tokens":20,"total_tokens":30}}` gives (10, 20, 30),
`{"usage":{"input_tokens":10,"output_tokens":20}}` gives (10, 20, 10+20),
and `{}` gives (0, 0, 0). -/
theorem c6_token_parsing_witness :
    extract_token_info (some (.obj [("usage", .obj
        [("prompt_tokens", .num 10), ("completion_tokens", .num 20),
         ("total_tokens", .num 30)])])) = .ok (.num 10, .num 20, .num 30)
    ∧ extract_token_info (some (.obj [("usage", .obj
        [("input_tokens", .num 10), ("output_tokens", .num 20)])])) =
        .ok (.num 10, .num 20, .num (10 + 20))
    ∧ ((10 : ℚ) + 20 = 30)
    ∧ extract_token_info (some (.obj [])) = .ok (.num 0, .num 0, .num 0) := by
  refine ⟨?_, ?_, by norm_num, ?_⟩
  · exact (c6_token_parsing
      [("usage", .obj [("prompt_tokens", .num 10), ("completion_tokens", .num 20),
        ("total_tokens", .num 30)])]
      [("prompt_tokens", .num 10), ("completion_tokens", .num 20), ("total_tokens", .num 30)]
      0 0).2.2.1 rfl rfl
  · exact (c6_token_parsing
      [("usage", .obj [("input_tokens", .num 10), ("output_tokens", .num 20)])]
      [("input_tokens", .num 10), ("output_tokens", .num 20)]
      10 20).2.2.2.1 rfl rfl rfl rfl rfl
  · exact (c6_token_parsing [] [] 0 0).2.1 rfl

/-- Decline holds between positions `i` and `i+1` of the dataframe rows:
the code's `df.iloc[i+1].rps < df.iloc[i].rps * 0.95`. -/
def DeclAt (rows : List ConcStageRow) (i : ℕ) : Prop :=
  ∃ a b, rows.get? i = some a ∧ rows.get? (i + 1) = some b ∧
    b.requests_per_second < a.requests_per_second * (95 / 100)

/-- Shifting `DeclAt` across a cons cell. -/
theorem declAt_cons (x : ConcStageRow) (l : List ConcStageRow) (i : ℕ) :
    DeclAt (x :: l) (i + 1) ↔ DeclAt l i := by
  simp [DeclAt]

/-- The scan finds the first adjacent decline. -/
theorem findDecline_eq_some (rows : List ConcStageRow) (i : ℕ) (h : DeclAt rows i)
    (hmin : ∀ j, j < i → ¬ DeclAt rows j) : findDecline rows = rows.get? i := by
  induction rows generalizing i with
  | nil => obtain ⟨a, b, ha, _, _⟩ := h; simp at ha
  | cons x rest ih =>
    cases rest with
    | nil =>
      obtain ⟨a, b, ha, hb, _⟩ := h
      rcases i with _ | i <;> simp at ha hb
    | cons y t =>
      by_cases hcond : y.requests_per_second < x.requests_per_second * (95 / 100)
      · have h0 : DeclAt (x :: y :: t) 0 := ⟨x, y, rfl, rfl, hcond⟩
        have hi0 : i = 0 := by
          by_contra hne
          exact hmin 0 (by omega) h0
        subst hi0
        simp [findDecline, hcond]
      · have hne0 : i ≠ 0 := by
          rintro rfl
          obtain ⟨a, b, ha, hb, hr⟩ := h
          simp at ha hb
          subst ha hb
          exact hcond hr
        obtain ⟨i, rfl⟩ : ∃ j, i = j + 1 := ⟨i - 1, by omega⟩
        have h' : DeclAt (y :: t) i := (declAt_cons x (y :: t) i).mp h
        have hmin' : ∀ j, j < i → ¬ DeclAt (y :: t) j := fun j hj hd =>
          hmin (j + 1) (by omega) ((declAt_cons x (y :: t) j).mpr hd)
        simp only [findDecline, if_neg hcond]
        rw [ih i h' hmin']
        simp

/-- The scan reports nothing when no adjacent decline exists. -/
theorem findDecline_eq_none (rows : List ConcStageRow) (h : ∀ i, ¬ DeclAt rows i) :
    findDecline rows = none := by
  induction rows with
  | nil => rfl
  | cons x rest ih =>
    cases rest with
    | nil => rfl
    | cons y t =>
      by_cases hcond : y.requests_per_second < x.requests_per_second * (95 / 100)
      · exact absurd ⟨x, y, rfl, rfl, hcond⟩ (h 0)
      · simp only [findDecline, if_neg hcond]
        exact ih fun i hd => h (i + 1) ((declAt_cons x (y :: t) i).mpr hd)

/-- Claim C5 counterexample: for a two-stage session with rps falling
from 10 to 1 (1 < 0.95·10), the claim demands the first stage be
reported as decline point, but `analyze_concurrency_impact` only runs the
scan under `len(df) > 2` and reports nothing. -/
theorem c5_throughput_decline_counterexample :
    (1 : ℚ) < (95 / 100) * 10
    ∧ throughput_decline_point
        [{ concurrent_level := 1, avg_response_time := 1, requests_per_second := 10,
           error_rate := 0, p95_response_time := 1, total_tokens := 0, tokens_per_second := 0 },
         { concurrent_level := 2, avg_response_time := 1, requests_per_second := 1,
           error_rate := 0, p95_response_time := 1, total_tokens := 0, tokens_per_second := 0 }]
        = none := by
  constructor
  · norm_num
  · rfl

/-- Claim C5 (corrected): the decline detection only runs when the
session has more than two stage rows.  In that case, if `i` is the first
index (0-based, `i ≥ 1` in the claim's numbering is `i + 1` here) where
`rps[i+1] < 0.95 · rps[i]`, stage `i` is reported as the decline point,
and if no such index exists nothing is reported; with at most two rows
nothing is ever reported. -/
theorem c5_throughput_decline (rows : List ConcStageRow) :
    (rows.length ≤ 2 → throughput_decline_point rows = none)
    ∧ (2 < rows.length →
        (∀ i, DeclAt rows i → (∀ j, j < i → ¬ DeclAt rows j) →
          throughput_decline_point rows = rows.get? i)
        ∧ ((∀ i, ¬ DeclAt rows i) → throughput_decline_point rows = none)) := by
  refine ⟨fun hle => ?_, fun hgt => ⟨fun i h hmin => ?_, fun h => ?_⟩⟩
  · simp [throughput_decline_point, Nat.not_lt.mpr hle]
  · rw [throughput_decline_point, if_pos hgt]
    exact findDecline_eq_some rows i h hmin
  · rw [throughput_decline_point, if_pos hgt]
    exact findDecline_eq_none rows h

/-- Claim C5 witness: three stages with rps 10, 40, 30 (spec scenario 5):
30 < 0.95·40, the first (and only) decline is at the second adjacent
pair, and the decline point reported is the 40-rps stage. -/
theorem c5_throughput_decline_witness :
    2 < ([{ concurrent_level := 1, avg_response_time := (1 : ℚ) / 10, requests_per_second := 10,
            error_rate := 0, p95_response_time := 1, total_tokens := 0, tokens_per_second := 0 },
          { concurrent_level := 5, avg_response_time := (2 : ℚ) / 10, requests_per_second := 40,
            error_rate := 0, p95_response_time := 1, total_tokens := 0, tokens_per_second := 0 },
          { concurrent_level := 10, avg_response_time := (5 : ℚ) / 10, requests_per_second := 30,
            error_rate := 0, p95_response_time := 1, total_tokens := 0, tokens_per_second := 0 }] :
          List ConcStageRow).length
    ∧ throughput_decline_point
        [{ concurrent_level := 1, avg_response_time := (1 : ℚ) / 10, requests_per_second := 10,
           error_rate := 0, p95_response_time := 1, total_tokens := 0, tokens_per_second := 0 },
         { concurrent_level := 5, avg_response_time := (2 : ℚ) / 10, requests_per_second := 40,
           error_rate := 0, p95_response_time := 1, total_tokens := 0, tokens_per_second := 0 },
         { concurrent_level := 10, avg_response_time := (5 : ℚ) / 10, requests_per_second := 30,
           error_rate := 0, p95_response_time := 1, total_tokens := 0, tokens_per_second := 0 }] =
        some { concurrent_level := 5, avg_response_time := (2 : ℚ) / 10,
               requests_per_second := 40, error_rate := 0, p95_response_time := 1,
               total_tokens := 0, tokens_per_second := 0 } := by
  constructor
  · decide
  · have h := (c5_throughput_decline
      [{ concurrent_level := 1, avg_response_time := (1 : ℚ) / 10, requests_per_second := 10,
         error_rate := 0, p95_response_time := 1, total_tokens := 0, tokens_per_second := 0 },
       { concurrent_level := 5, avg_response_time := (2 : ℚ) / 10, requests_per_second := 40,
         error_rate := 0, p95_response_time := 1, total_tokens := 0, tokens_per_second := 0 },
       { concurrent_level := 10, avg_response_time := (5 : ℚ) / 10, requests_per_second := 30,
         error_rate := 0, p95_response_time := 1, total_tokens := 0, tokens_per_second := 0 }]).2
      (by decide)
    refine (h.1 1 ⟨_, _, rfl, rfl, by norm_num⟩ ?_).trans rfl
    intro j hj
    interval_cases j
    rintro ⟨a, b, ha, hb, hr⟩
    simp only [List.get?] at ha hb
    obtain rfl := Option.some_injective _ ha
    obtain rfl := Option.some_injective _ hb
    norm_num at hr

/-! ## Claim C3: stage cardinality and synthesized failure outcomes -/

/-- Sequential collection distributes over append, shifting the clock
index by the length of the first part. -/
theorem collectSeq_append (clock : ℕ → ℚ) (idx : ℕ)
    (l1 l2 : List (Except String RequestResult)) :
    collectSeq clock idx (l1 ++ l2) =
      collectSeq clock idx l1 ++ collectSeq clock (idx + l1.length) l2 := by
  induction l1 generalizing idx with
  | nil => simp [collectSeq]
  | cons t ts ih =>
    simp only [List.cons_append, List.append_eq, collectSeq, List.length_cons]
    rw [ih (idx + 1), show idx + (ts.length + 1) = idx + 1 + ts.length from by omega]

/-- The batched collection loop collects exactly the same list as a
single left-to-right pass. -/
theorem collectBatches_eq_collectSeq (clock : ℕ → ℚ) (bs1 idx : ℕ)
    (ts : List (Except String RequestResult)) :
    collectBatches clock bs1 idx ts = collectSeq clock idx ts := by
  rw [collectBatches]
  by_cases h : ts.isEmpty
  · rw [if_pos h]
    obtain rfl : ts = [] := by simpa [List.isEmpty_iff] using h
    rfl
  · rw [if_neg h]
    rw [collectBatches_eq_collectSeq clock bs1 (idx + (ts.take (bs1 + 1)).length)
      (ts.drop (bs1 + 1))]
    rw [← collectSeq_append]
    rw [List.take_append_drop]
termination_by ts.length
decreasing_by
  cases ts with
  | nil => simp at h
  | cons x t => simp only [List.length_drop, List.length_cons]; omega

/-- Element-wise description of the sequential collection. -/
theorem collectSeq_get? (clock : ℕ → ℚ) (idx i : ℕ)
    (ts : List (Except String RequestResult)) :
    (collectSeq clock idx ts).get? i =
      (ts.get? i).map (fun t => collectResult (clock (idx + i)) t) := by
  induction ts generalizing idx i with
  | nil => simp [collectSeq]
  | cons t rest ih =>
    cases i with
    | zero => simp [collectSeq]
    | succ i =>
      simp only [collectSeq, List.get?_cons_succ, ih (idx + 1) i]
      rw [show idx + 1 + i = idx + (i + 1) from by omega]

/-- The sequential collection preserves the count. -/
theorem collectSeq_length (clock : ℕ → ℚ) (idx : ℕ)
    (ts : List (Except String RequestResult)) :
    (collectSeq clock idx ts).length = ts.length := by
  induction ts generalizing idx with
  | nil => rfl
  | cons t rest ih => simp [collectSeq, ih]

/-- Claim C3 (confirmed): for a stage with positive concurrency,
`run_concurrent_requests` returns exactly one outcome per gathered value
(so exactly N outcomes for N requested tasks) regardless of failures;
a gathered exception at collection index i becomes a synthesized failed
outcome with the current timestamp, empty prompt, latency 0, status 0,
success = false and the stringified exception as error message. -/
theorem c3_stage_cardinality (C : ℕ) (hC : 0 < C) (clock : ℕ → ℚ)
    (gathered : List (Except String RequestResult)) :
    ∃ res, run_concurrent_requests C clock gathered = .ok res
      ∧ res.length = gathered.length
      ∧ ∀ i, res.get? i = (gathered.get? i).map (fun t =>
          match t with
          | .ok r => r
          | .error e =>
            { timestamp := clock i
              prompt := ""
              response_time := 0
              status_code := 0
              success := false
              response_content := ""
              error_message := some e
              input_tokens := 0
              output_tokens := 0
              total_tokens := 0
              content_length := 0 }) := by
  refine ⟨collectSeq clock 0 gathered, ?_, collectSeq_length clock 0 gathered, ?_⟩
  · rw [run_concurrent_requests]
    have hmin : 0 < min (2 * C) 100 := by omega
    cases hbs : min (2 * C) 100 with
    | zero => omega
    | succ b =>
      show Except.ok (collectBatches clock b 0 gathered) = _
      rw [collectBatches_eq_collectSeq]
  · intro i
    rw [collectSeq_get?]
    simp only [Nat.zero_add]
    cases hg : gathered.get? i with
    | none => rfl
    | some t => cases t <;> rfl

/-- Claim C3 witness: a stage of three gathered values, the middle one an
exception, yields exactly three outcomes with the synthesized failure in
the middle. -/
theorem c3_stage_cardinality_witness :
    0 < 2
    ∧ ∃ res, run_concurrent_requests 2 (fun _ => (5 : ℚ))
        [.ok { timestamp := 1, prompt := "p", response_time := 1, status_code := 200,
               success := true, response_content := "ok", error_message := none,
               input_tokens := 1, output_tokens := 2, total_tokens := 3, content_length := 2 },
         .error "boom",
         .ok { timestamp := 2, prompt := "q", response_time := 1, status_code := 200,
               success := true, response_content := "ok", error_message := none,
               input_tokens := 1, output_tokens := 2, total_tokens := 3, content_length := 2 }] =
          .ok res
      ∧ res.length = 3
      ∧ res.get? 1 = some
          { timestamp := 5, prompt := "", response_time := 0, status_code := 0,
            success := false, response_content := "", error_message := some "boom",
            input_tokens := 0, output_tokens := 0, total_tokens := 0, content_length := 0 } := by
  refine ⟨by decide, ?_⟩
  obtain ⟨res, hok, hlen, helts⟩ := c3_stage_cardinality 2 (by decide) (fun _ => (5 : ℚ))
    [.ok { timestamp := 1, prompt := "p", response_time := 1, status_code := 200,
           success := true, response_content := "ok", error_message := none,
           input_tokens := 1, output_tokens := 2, total_tokens := 3, content_length := 2 },
     .error "boom",
     .ok { timestamp := 2, prompt := "q", response_time := 1, status_code := 200,
           success := true, response_content := "ok", error_message := none,
           input_tokens := 1, output_tokens := 2, total_tokens := 3, content_length := 2 }]
  exact ⟨res, hok, hlen, (helts 1).trans rfl⟩

/-! ## Claim C4: retry policy -/

/-- Claim C4 counterexample: a received HTTP 500 response whose body is
the valid-JSON scalar "5" is indeed never retried, but the returned
failed Attempt Outcome does NOT preserve the status code — token
extraction raises `TypeError` inside the `try` block of
`send_single_request`, and the `except` handler emits status 0. -/
theorem c4_retry_policy_counterexample :
    (send_single_request "p" 0 2 (fun _ =>
        .ok { status := 500, text := "5", parsed := some (.num 5), response_time := 1 })).status_code
      = 0
    ∧ (send_single_request "p" 0 2 (fun _ =>
        .ok { status := 500, text := "5", parsed := some (.num 5), response_time := 1 })).success
      = false
    ∧ (make_request (fun _ =>
        .ok { status := 500, text := "5", parsed := some (.num 5), response_time := 1 })).2.1 = 1 := by
  refine ⟨rfl, rfl, rfl⟩

/-- Claim C4 (corrected): every execution issues at most 3 HTTP
attempts; the waits between attempts follow the exponential schedule
`2^k` seconds clamped to [1 s, 10 s]; any received HTTP response — in
particular a non-2xx one — stops the retry loop after that attempt; and
a non-2xx response becomes a failed outcome with the status code
preserved PROVIDED token extraction of its body does not itself raise
(otherwise the outcome is failed with status 0, as refuted above). -/
theorem c4_retry_policy (attempt : ℕ → Except String HttpResponse)
    (prompt : String) (ts now : ℚ) :
    (make_request attempt).2.1 ≤ 3
    ∧ (make_request attempt).2.2 =
        (List.range ((make_request attempt).2.1 - 1)).map
          (fun k => max 1 (min 10 (1 * 2 ^ k)))
    ∧ (∀ r, attempt 0 = .ok r → make_request attempt = (.ok r, 1, []))
    ∧ (∀ r tks, attempt 0 = .ok r → ¬ (200 ≤ r.status ∧ r.status < 300) →
        extract_token_info r.parsed = .ok tks →
        (send_single_request prompt ts now attempt).success = false
        ∧ (send_single_request prompt ts now attempt).status_code = r.status) := by
  refine ⟨?_, ?_, ?_, ?_⟩
  · rcases h0 : attempt 0 with e0 | r0
    · rcases h1 : attempt 1 with e1 | r1
      · rcases h2 : attempt 2 with e2 | r2 <;>
          simp [make_request, h0, h1, h2]
      · simp [make_request, h0, h1]
    · simp [make_request, h0]
  · rcases h0 : attempt 0 with e0 | r0
    · rcases h1 : attempt 1 with e1 | r1
      · rcases h2 : attempt 2 with e2 | r2 <;>
          simp [make_request, h0, h1, h2, waitExponential, List.range_succ]
      · simp [make_request, h0, h1, waitExponential, List.range_succ]
    · simp [make_request, h0]
  · intro r h0
    simp [make_request, h0]
  · intro r tks h0 hst hex
    have hm : make_request attempt = (.ok r, 1, []) := by simp [make_request, h0]
    have hs : (decide (200 ≤ r.status) && decide (r.status < 300)) = false := by
      rcases Decidable.not_and_iff_or_not.mp hst with h | h <;> simp [h]
    constructor <;> simp [send_single_request, hm, hex, hs]

/-- A concrete 404 response with the empty-object JSON body, for the C4
witness. -/
def resp404 : HttpResponse :=
  { status := 404
    text := "\x7b\x7d"
    parsed := some (.obj [])
    response_time := 1 }

/-- Claim C4 witness: a single 404 response with an empty-object JSON
body — one attempt, no waits, failed outcome with status 404. -/
theorem c4_retry_policy_witness :
    ((fun _ => Except.ok resp404 : ℕ → Except String HttpResponse) 0 = Except.ok resp404)
    ∧ ¬ (200 ≤ resp404.status ∧ resp404.status < 300)
    ∧ extract_token_info resp404.parsed = .ok (.num 0, .num 0, .num 0)
    ∧ (send_single_request "p" 0 2 (fun _ => .ok resp404)).success = false
    ∧ (send_single_request "p" 0 2 (fun _ => .ok resp404)).status_code = 404 := by
  have h := (c4_retry_policy (fun _ => .ok resp404) "p" 0 2).2.2.2
    resp404 (.num 0, .num 0, .num 0) rfl (by decide) rfl
  exact ⟨rfl, by decide, rfl, h.1, h.2⟩

/-! ## Claim C9: token aggregation -/

/-- A successful outcome with zero latency, for the C9 counterexample. -/
def zeroLatencySuccess : RequestResult :=
  { timestamp := 0
    prompt := ""
    response_time := 0
    status_code := 200
    success := true
    response_content := ""
    error_message := none
    input_tokens := 10
    output_tokens := 20
    total_tokens := 30
    content_length := 0 }

/-- Claim C9 counterexample: for a single successful outcome with
`response_time = 0` and 30 tokens, the sum of `total_tokens` over the
outcomes with success = true is 30, but the analyzer reports 0 — its
token totals are computed over the subset with `success AND
response_time > 0`, not over all successful outcomes. -/
theorem c9_token_aggregation_counterexample :
    ((([zeroLatencySuccess].filter (fun r => r.success)).map
        (fun r => r.total_tokens)).sum = 30)
    ∧ (analyze_results [zeroLatencySuccess] 1).total_tokens = 0 := by
  constructor
  · simp [zeroLatencySuccess]
  · simp [analyze_results, successfulResults, zeroLatencySuccess]

/-- Claim C9 (corrected): for every non-empty list of outcomes, the
analyzer's `total_tokens` is the sum of `total_tokens` over the outcomes
with success = true AND response_time > 0 (the same subset used for the
latency statistics), `avg_tokens_per_request` is that sum divided by the
size of that subset (0 when it is empty), and `tokens_per_second` is
that sum divided by the total test time (0 when the test time is not
positive). -/
theorem c9_token_aggregation (results : List RequestResult) (c : ℚ)
    (hne : results ≠ []) :
    (analyze_results results c).total_tokens =
        ((successfulResults results).map (fun r => r.total_tokens)).sum
    ∧ (analyze_results results c).avg_tokens_per_request =
        (if (successfulResults results).isEmpty then 0
         else ((successfulResults results).map (fun r => r.total_tokens)).sum /
           ((successfulResults results).length : ℚ))
    ∧ (analyze_results results c).tokens_per_second =
        (if (analyze_results results c).total_test_time > 0
         then ((successfulResults results).map (fun r => r.total_tokens)).sum /
           (analyze_results results c).total_test_time
         else 0) := by
  have hne' : results.isEmpty = false := by simpa [List.isEmpty_iff] using hne
  refine ⟨?_, ?_, ?_⟩ <;> simp [analyze_results, hne']

/-- Claim C9 witness: one successful outcome with positive latency and
30 tokens. -/
theorem c9_token_aggregation_witness :
    ([{ timestamp := 0, prompt := "p", response_time := 1, status_code := 200,
        success := true, response_content := "", error_message := none,
        input_tokens := 10, output_tokens := 20, total_tokens := 30,
        content_length := 0 }] : List RequestResult) ≠ []
    ∧ (analyze_results
        [{ timestamp := 0, prompt := "p", response_time := 1, status_code := 200,
           success := true, response_content := "", error_message := none,
           input_tokens := 10, output_tokens := 20, total_tokens := 30,
           content_length := 0 }] 1).total_tokens =
        ((successfulResults
          [{ timestamp := 0, prompt := "p", response_time := 1, status_code := 200,
             success := true, response_content := "", error_message := none,
             input_tokens := 10, output_tokens := 20, total_tokens := 30,
             content_length := 0 }]).map (fun r => r.total_tokens)).sum := by
  refine ⟨by simp, ?_⟩
  exact (c9_token_aggregation
    [{ timestamp := 0, prompt := "p", response_time := 1, status_code := 200,
       success := true, response_content := "", error_message := none,
       input_tokens := 10, output_tokens := 20, total_tokens := 30,
       content_length := 0 }] 1 (by simp)).1

/-! ## Claim C10: sessions with no positive stage average are never
persisted -/

/-- Claim C10 (confirmed): `save_test_session` computes the session
average as `statistics.mean` over the stage averages that are strictly
positive; when the stage list is empty or every stage average is 0, that
list is empty, `statistics.mean` raises before any row is written and
the session is never persisted.  Conversely, whenever some stage average
is positive the save succeeds. -/
theorem c10_empty_mean_raises (db : TestDatabase) (sid api cfg md : String)
    (st et now : ℚ) (lrs : List LoadTestResult) (ns : List (String × NetworkStats)) :
    ((lrs = [] ∨ ∀ r ∈ lrs, r.avg_response_time = 0) →
      save_test_session db sid api cfg st et lrs ns md now =
        .error "StatisticsError: mean requires at least one data point")
    ∧ ((lrs.filter (fun r => r.avg_response_time > 0)) ≠ [] →
      ∃ db2, save_test_session db sid api cfg st et lrs ns md now = .ok db2) := by
  constructor
  · intro h
    have hfilter : lrs.filter (fun r => r.avg_response_time > 0) = [] := by
      rcases h with rfl | hall
      · rfl
      · refine List.filter_eq_nil_iff.mpr fun r hr => ?_
        simp [hall r hr]
    rw [save_test_session]
    simp [hfilter]
  · intro h
    rw [save_test_session]
    simp only [List.isEmpty_eq_true, List.map_eq_nil_iff, h, if_neg]
    exact ⟨_, rfl⟩

/-- Claim C10 witness: the empty stage list makes the save raise, and a
one-stage list with average 1 makes it succeed. -/
theorem c10_empty_mean_raises_witness :
    (([] : List LoadTestResult) = [] ∨ ∀ r ∈ ([] : List LoadTestResult), r.avg_response_time = 0)
    ∧ save_test_session TestDatabase.empty "s" "api" "cfg" 0 1 [] [] "m" 1 =
        .error "StatisticsError: mean requires at least one data point" := by
  exact ⟨Or.inl rfl,
    (c10_empty_mean_raises TestDatabase.empty "s" "api" "cfg" "m" 0 1 1 [] []).1 (Or.inl rfl)⟩

/-! ## Claims C1 and C2: persistence round trip -/

/-- A concrete successful attempt outcome used by the persistence
claims. -/
def sampleReq : RequestResult :=
  { timestamp := 0
    prompt := "p"
    response_time := 1
    status_code := 200
    success := true
    response_content := "body"
    error_message := none
    input_tokens := 10
    output_tokens := 20
    total_tokens := 30
    content_length := 4 }

/-- A concrete one-request stage result used by the persistence
claims. -/
def sampleStage : LoadTestResult :=
  { concurrent_level := 1
    total_requests := 1
    successful_requests := 1
    failed_requests := 0
    avg_response_time := 1
    min_response_time := 1
    max_response_time := 1
    p50_response_time := 1
    p95_response_time := 1
    p99_response_time := 1
    requests_per_second := 1
    total_test_time := 1
    error_rate := 0
    timeout_count := 0
    total_tokens := 30
    avg_tokens_per_request := 30
    tokens_per_second := 30
    results := [sampleReq] }

/-- One fixed `save_test_session` call: session id "s", the single stage
`sampleStage`, no network stats. -/
def saveSample (db : TestDatabase) : Except String TestDatabase :=
  save_test_session db "s" "api" "cfg" 0 10 [sampleStage] [] "meta" 10

/-- Claim C1 (code bug): saving the same session twice duplicates the
child rows.  After one `saveSample` on an empty database the session has
one header row, one stage row and one request row; after saving the
identical payload again it still has one header row (the `INSERT OR
REPLACE` overwrites it) but TWO copies of the stage row and of the
request row — the plain `INSERT`s append without clearing the previous
rows, so repeated saves do not produce identical query results. -/
theorem c1_idempotent_persistence_bug :
    (saveSample TestDatabase.empty).map (fun db1 =>
        ((db1.test_sessions.filter (fun s => s.session_id == "s")).length,
         (db1.load_test_results.filter (fun r => r.session_id == "s")).length,
         (db1.request_results.filter (fun q => q.session_id == "s")).length)) =
      .ok (1, 1, 1)
    ∧ ((saveSample TestDatabase.empty).bind saveSample).map (fun db2 =>
        ((db2.test_sessions.filter (fun s => s.session_id == "s")).length,
         (db2.load_test_results.filter (fun r => r.session_id == "s")).length,
         (db2.request_results.filter (fun q => q.session_id == "s")).length)) =
      .ok (1, 2, 2) := by
  constructor <;>
    norm_num [saveSample, save_test_session, sampleStage, sampleReq, TestDatabase.empty,
      stageRequestPairs, mkLoadRow, mkReqRow, List.enum, List.enumFrom, List.filter,
      pyMax, List.foldl, Except.map, Except.bind]

/-- Every row dictionary built by `get_load_test_results` is rejected by
the `LoadTestResult` constructor: its first key is the table column
`id`, which is not a dataclass field, so the `TypeError` fires no matter
what the row holds. -/
theorem kwargs_reject_row_dict (row : LoadRow) (rs : List RequestResult) :
    loadTestResultOfKwargs (row.toDict ++ [("results", SqlVal.resultsVal rs)]) =
      .error "TypeError: unexpected keyword argument id" := by
  have hfind : (row.toDict ++ [("results", SqlVal.resultsVal rs)]).find?
      (fun kv => !(loadTestResultFields.contains kv.1)) =
        some ("id", SqlVal.intVal (row.row_id : ℤ)) := by
    rw [LoadRow.toDict]
    simp [List.find?_cons_of_pos, loadTestResultFields]
  rw [loadTestResultOfKwargs, hfind]
  simp

/-- Claim C2 (code bug): reading a persisted session back crashes.
`get_load_test_results` builds `row_dict = dict(row)` whose keys include
the table columns `id` and `session_id`, which are not fields of the
`LoadTestResult` dataclass, so `LoadTestResult(**row_dict)` raises
`TypeError` for every session with at least one stage row — the
round-trip law cannot hold because the read side never returns. -/
theorem c2_round_trip_bug :
    (saveSample TestDatabase.empty).bind (fun db1 => get_load_test_results db1 "s") =
      .error "TypeError: unexpected keyword argument id" := by
  norm_num [saveSample, save_test_session, sampleStage, sampleReq, TestDatabase.empty,
    stageRequestPairs, mkLoadRow, mkReqRow, List.enum, List.enumFrom,
    get_load_test_results, buildLoadResults, kwargs_reject_row_dict,
    List.insertionSort, List.orderedInsert, List.filter,
    reqRowToResult, pyMax, List.foldl, Except.map, Except.bind]

/-! ## Claim C8: percentile formula and monotonicity -/

/-- The percentile formula exactly as the claim words it: `k =
(L-1)·p/100`, `f = ⌊k⌋`, `c = k - f`, result `x[f]·(1-c) + x[f+1]·c`,
and `x[f]` when `f = L-1`. -/
def percentileSpec (data : List ℚ) (p : ℚ) : ℚ :=
  let k : ℚ := ((data.length : ℚ) - 1) * p / 100
  let f : ℤ := ⌊k⌋
  let c : ℚ := k - (f : ℚ)
  if f = (data.length : ℤ) - 1 then data.getD f.toNat 0
  else data.getD f.toNat 0 * (1 - c) + data.getD (f.toNat + 1) 0 * c

/-- Monotone access into an ascending-sorted list. -/
theorem sorted_getD_le (data : List ℚ) (hs : data.Sorted (· ≤ ·)) (i j : ℕ)
    (hij : i ≤ j) (hj : j < data.length) : data.getD i 0 ≤ data.getD j 0 := by
  have hi : i < data.length := lt_of_le_of_lt hij hj
  rw [List.getD_eq_get data 0 hi, List.getD_eq_get data 0 hj]
  rcases lt_or_eq_of_le hij with hlt | heq
  · exact hs.rel_get_of_lt hlt
  · subst heq
    exact le_refl _

/-- Range of the interpolation index `⌊(L-1)·p/100⌋` for `p ∈ [0, 100]`
on a list of length `L ≥ 1`. -/
theorem floor_k_bounds (L : ℕ) (hL : 1 ≤ L) (p : ℚ) (hp : 0 ≤ p) (hp100 : p ≤ 100) :
    0 ≤ ⌊((L : ℚ) - 1) * p / 100⌋ ∧ ⌊((L : ℚ) - 1) * p / 100⌋ ≤ (L : ℤ) - 1 := by
  have hL1 : (1 : ℚ) ≤ (L : ℚ) := by exact_mod_cast hL
  have hk0 : 0 ≤ ((L : ℚ) - 1) * p / 100 :=
    div_nonneg (mul_nonneg (by linarith) hp) (by norm_num)
  refine ⟨Int.floor_nonneg.mpr hk0, ?_⟩
  have hktop : ((L : ℚ) - 1) * p / 100 ≤ (L : ℚ) - 1 := by
    have hrw : ((L : ℚ) - 1) * p / 100 = ((L : ℚ) - 1) * (p / 100) := by ring
    rw [hrw]
    have hp1 : p / 100 ≤ 1 := by linarith
    nlinarith
  calc ⌊((L : ℚ) - 1) * p / 100⌋ ≤ ⌊(L : ℚ) - 1⌋ := Int.floor_le_floor hktop
    _ = (L : ℤ) - 1 := by
        rw [show ((L : ℚ) - 1) = (((L : ℤ) - 1 : ℤ) : ℚ) by push_cast; ring]
        exact Int.floor_intCast _

/-- The code's percentile (`if f < L-1` branch) agrees with the claim's
formula (`x[f]` exactly when `f = L-1`) on the claim's domain. -/
theorem percentile_eq_percentileSpec (data : List ℚ) (hne : data ≠ []) (p : ℚ)
    (hp : 0 ≤ p) (hp100 : p ≤ 100) : percentile data p = percentileSpec data p := by
  have hL : 1 ≤ data.length := List.length_pos.mpr hne
  obtain ⟨hfa, hfb⟩ := floor_k_bounds data.length hL p hp hp100
  simp only [percentile, percentileSpec]
  by_cases h : ⌊((data.length : ℚ) - 1) * p / 100⌋ < (data.length : ℤ) - 1
  · rw [if_pos h, if_neg (by omega)]
  · rw [if_neg h, if_pos (by omega)]

/-- The percentile at 100 is the last element. -/
theorem percentile_hundred (data : List ℚ) (hne : data ≠ []) :
    percentile data 100 = data.getD (data.length - 1) 0 := by
  have hL : 1 ≤ data.length := List.length_pos.mpr hne
  simp only [percentile]
  rw [show ((data.length : ℚ) - 1) * 100 / 100 = (((data.length : ℤ) - 1 : ℤ) : ℚ)
      by push_cast; ring]
  rw [Int.floor_intCast]
  rw [if_neg (by omega)]
  congr 1
  omega

/-- Python `max` of an ascending-sorted non-empty list is its last
element. -/
theorem pyMax_sorted : ∀ (data : List ℚ), data.Sorted (· ≤ ·) → data ≠ [] →
    pyMax data = data.getD (data.length - 1) 0
  | [], _, hne => absurd rfl hne
  | [a], _, _ => by simp [pyMax]
  | a :: b :: t, hs, _ => by
    have hab : a ≤ b := (List.sorted_cons.mp hs).1 b (by simp)
    have hs' : (b :: t).Sorted (· ≤ ·) := (List.sorted_cons.mp hs).2
    have h1 : pyMax (a :: b :: t) = pyMax (max a b :: t) := rfl
    rw [h1, max_eq_right hab, pyMax_sorted (b :: t) hs' (by simp)]
    simp

/-- Monotonicity of the linear-interpolation percentile in `p` on an
ascending-sorted non-empty list. -/
theorem percentile_mono (data : List ℚ) (hs : data.Sorted (· ≤ ·)) (hne : data ≠ [])
    (p q : ℚ) (hp : 0 ≤ p) (hpq : p ≤ q) (hq : q ≤ 100) :
    percentile data p ≤ percentile data q := by
  have hL : 1 ≤ data.length := List.length_pos.mpr hne
  have hq0 : 0 ≤ q := le_trans hp hpq
  have hp100 : p ≤ 100 := le_trans hpq hq
  obtain ⟨hf1a, hf1b⟩ := floor_k_bounds data.length hL p hp hp100
  obtain ⟨hf2a, hf2b⟩ := floor_k_bounds data.length hL q hq0 hq
  simp only [percentile]
  set L := data.length with hLdef
  set k1 : ℚ := ((L : ℚ) - 1) * p / 100 with hk1def
  set k2 : ℚ := ((L : ℚ) - 1) * q / 100 with hk2def
  set f1 : ℤ := ⌊k1⌋ with hf1def
  set f2 : ℤ := ⌊k2⌋ with hf2def
  have hk12 : k1 ≤ k2 := by
    have hL1 : (1 : ℚ) ≤ (L : ℚ) := by exact_mod_cast hL
    have hmul : ((L : ℚ) - 1) * p ≤ ((L : ℚ) - 1) * q :=
      mul_le_mul_of_nonneg_left hpq (by linarith)
    rw [hk1def, hk2def]
    linarith
  have hf12 : f1 ≤ f2 := Int.floor_le_floor hk12
  have hc1a : 0 ≤ k1 - (f1 : ℚ) := by
    have := Int.floor_le k1; rw [← hf1def] at this; linarith
  have hc1b : k1 - (f1 : ℚ) < 1 := by
    have := Int.lt_floor_add_one k1; rw [← hf1def] at this; linarith
  have hc2a : 0 ≤ k2 - (f2 : ℚ) := by
    have := Int.floor_le k2; rw [← hf2def] at this; linarith
  have hc2b : k2 - (f2 : ℚ) < 1 := by
    have := Int.lt_floor_add_one k2; rw [← hf2def] at this; linarith
  have hT1 : (f1.toNat : ℤ) = f1 := Int.toNat_of_nonneg hf1a
  have hT2 : (f2.toNat : ℤ) = f2 := Int.toNat_of_nonneg (le_trans hf1a hf12)
  by_cases h1 : f1 < (L : ℤ) - 1
  · have hb1 : f1.toNat + 1 < L := by omega
    have hx1 : data.getD f1.toNat 0 ≤ data.getD (f1.toNat + 1) 0 :=
      sorted_getD_le data hs _ _ (by omega) hb1
    have hv1 : data.getD f1.toNat 0 * (1 - (k1 - (f1 : ℚ))) +
        data.getD (f1.toNat + 1) 0 * (k1 - (f1 : ℚ)) ≤ data.getD (f1.toNat + 1) 0 := by
      nlinarith [mul_nonneg (by linarith : (0 : ℚ) ≤ 1 - (k1 - (f1 : ℚ)))
        (sub_nonneg.mpr hx1)]
    by_cases h2 : f2 < (L : ℤ) - 1
    · rw [if_pos h1, if_pos h2]
      rcases eq_or_lt_of_le hf12 with heq | hlt
      · rw [← heq] at hc2a hc2b ⊢
        have hc12 : k1 - (f1 : ℚ) ≤ k2 - (f1 : ℚ) := by linarith
        nlinarith [mul_nonneg (sub_nonneg.mpr hc12) (sub_nonneg.mpr hx1)]
      · have hb2 : f2.toNat + 1 < L := by omega
        have hx2 : data.getD f2.toNat 0 ≤ data.getD (f2.toNat + 1) 0 :=
          sorted_getD_le data hs _ _ (by omega) hb2
        have hmid : data.getD (f1.toNat + 1) 0 ≤ data.getD f2.toNat 0 :=
          sorted_getD_le data hs _ _ (by omega) (by omega)
        have hv2 : data.getD f2.toNat 0 ≤
            data.getD f2.toNat 0 * (1 - (k2 - (f2 : ℚ))) +
              data.getD (f2.toNat + 1) 0 * (k2 - (f2 : ℚ)) := by
          nlinarith [mul_nonneg hc2a (sub_nonneg.mpr hx2)]
        linarith
    · rw [if_pos h1, if_neg h2]
      have hf2eq : f2 = (L : ℤ) - 1 := le_antisymm hf2b (not_lt.mp h2)
      have hmid : data.getD (f1.toNat + 1) 0 ≤ data.getD f2.toNat 0 :=
        sorted_getD_le data hs _ _ (by omega) (by omega)
      linarith
  · have hf1eq : f1 = (L : ℤ) - 1 := le_antisymm hf1b (not_lt.mp h1)
    have h2 : ¬ f2 < (L : ℤ) - 1 := by omega
    rw [if_neg h1, if_neg h2]
    have : f1.toNat = f2.toNat := by omega
    rw [this]

/-- Claim C8 (confirmed): on every non-empty ascending-sorted list of
successful latencies, the analyzer's percentile agrees with the claimed
linear-interpolation formula for every `p ∈ [0, 100]`, and the resulting
values satisfy p50 ≤ p95 ≤ p99 ≤ max (where max is Python's `max` over
the same latencies). -/
theorem c8_percentiles (data : List ℚ) (hne : data ≠ []) (hs : data.Sorted (· ≤ ·)) :
    (∀ p : ℚ, 0 ≤ p → p ≤ 100 → percentile data p = percentileSpec data p)
    ∧ percentile data 50 ≤ percentile data 95
    ∧ percentile data 95 ≤ percentile data 99
    ∧ percentile data 99 ≤ pyMax data := by
  refine ⟨fun p hp hq => percentile_eq_percentileSpec data hne p hp hq,
    percentile_mono data hs hne 50 95 (by norm_num) (by norm_num) (by norm_num),
    percentile_mono data hs hne 95 99 (by norm_num) (by norm_num) (by norm_num), ?_⟩
  have h := percentile_mono data hs hne 99 100 (by norm_num) (by norm_num) (by norm_num)
  rw [percentile_hundred data hne] at h
  rw [pyMax_sorted data hs hne]
  exact h

/-- Claim C8 witness: the spec's scenario-1 latencies [0.1, 0.2, 0.3,
0.4]: the chain p50 ≤ p95 ≤ p99 ≤ max holds, with p50 = 0.25 and
p95 = 0.385. -/
theorem c8_percentiles_witness :
    ([(1 : ℚ)/10, 2/10, 3/10, 4/10] ≠ [])
    ∧ List.Sorted (· ≤ ·) [(1 : ℚ)/10, 2/10, 3/10, 4/10]
    ∧ percentile [(1 : ℚ)/10, 2/10, 3/10, 4/10] 50 ≤
        percentile [(1 : ℚ)/10, 2/10, 3/10, 4/10] 95
    ∧ percentile [(1 : ℚ)/10, 2/10, 3/10, 4/10] 95 ≤
        percentile [(1 : ℚ)/10, 2/10, 3/10, 4/10] 99
    ∧ percentile [(1 : ℚ)/10, 2/10, 3/10, 4/10] 99 ≤ pyMax [(1 : ℚ)/10, 2/10, 3/10, 4/10]
    ∧ percentile [(1 : ℚ)/10, 2/10, 3/10, 4/10] 50 = 25/100
    ∧ percentile [(1 : ℚ)/10, 2/10, 3/10, 4/10] 95 = 385/1000 := by
  have hs : List.Sorted (· ≤ ·) [(1 : ℚ)/10, 2/10, 3/10, 4/10] := by
    simp [List.sorted_cons]
    norm_num
  have h := c8_percentiles [(1 : ℚ)/10, 2/10, 3/10, 4/10] (by simp) hs
  refine ⟨by simp, hs, h.2.1, h.2.2.1, h.2.2.2, ?_, ?_⟩
  · norm_num [percentile, Int.toNat_ofNat, List.getElem_cons_succ, List.getElem_cons_zero]
  · norm_num [percentile, Int.toNat_ofNat, List.getElem_cons_succ, List.getElem_cons_zero]
    norm_num [show Int.toNat 2 = 2 from rfl, List.getElem_cons_succ, List.getElem_cons_zero]

end ApiTester
